import Mathlib

/-!
Shallow embedding of the transactional core of the LibraryManagement
repository (src/models/book.py, src/models/member.py,
src/models/transaction.py, src/services/library_service.py,
src/utils/validators.py).

Modelling conventions:
* Python `datetime` values are modelled as integers (seconds); `timedelta.days`
  is floor division by 86400 (`Int.fdiv`), matching Python's floor semantics.
* Python `date` values are modelled as a (year, month, day) triple with the
  lexicographic order, matching Python's `date` comparison; `date(y + k, m, d)`
  is year addition on the triple.
* Python floats holding money are modelled as rationals.
* Generated UUIDs are modelled as caller-supplied identifier strings.
* Whitespace sets of `str.strip` and the `\s` regex class are modelled by the
  ASCII whitespace characters (all strings in the repository are ASCII).
-/

namespace LibMS

/-- ASCII whitespace, the characters removed by Python `str.strip()` and
matched by the `\s` class in the repository's regexes. -/
def isPySpace (c : Char) : Bool :=
  c = ' ' || c = '\t' || c = '\n' || c = '\r' || c = '\x0b' || c = '\x0c'

/-- Python `str.strip()` on a character list. -/
def pstripList (l : List Char) : List Char :=
  ((l.dropWhile isPySpace).reverse.dropWhile isPySpace).reverse

/-- Python `str.strip()`. -/
def pstrip (s : String) : String :=
  ⟨pstripList s.toList⟩

/-- Python `date` modelled as a year-month-day triple. -/
structure PyDate where
  year : Int
  month : Int
  day : Int
deriving DecidableEq, Repr

/-- Python `date` comparison `a <= b` (lexicographic on (year, month, day)). -/
def PyDate.le (a b : PyDate) : Bool :=
  a.year < b.year ||
  (a.year = b.year && (a.month < b.month ||
    (a.month = b.month && a.day ≤ b.day)))

/-- Python `date` comparison `a < b`. -/
def PyDate.lt (a b : PyDate) : Bool :=
  a.year < b.year ||
  (a.year = b.year && (a.month < b.month ||
    (a.month = b.month && a.day < b.day)))

/-- Python `date(d.year + k, d.month, d.day)`. -/
def PyDate.addYears (d : PyDate) (k : Int) : PyDate :=
  ⟨d.year + k, d.month, d.day⟩

/-- Python `timedelta(days = n)` between two `datetime`s in seconds:
`(end - start).days` floors towards minus infinity. -/
def tdDays (delta : Int) : Int :=
  delta.fdiv 86400

/-- Python `round(x, 2)`: round to two decimal places.  (Python rounds exact
ties to even; no tie arises in any value computed by the repository's fine
schedule at the inputs the claims mention, so the rounding function is
modelled with the standard `round`.) -/
def round2 (q : ℚ) : ℚ :=
  (round (q * 100) : ℤ) / 100

/-! ### ISBN validation (src/utils/validators.py, `Validator.isbn`,
`Validator._is_valid_isbn10`, `Validator._is_valid_isbn13`)

`isbn10code`/`isbn13code` are the code's checks; `isbn10spec`/`isbn13spec`
restate the specification's wording of the checksum rules ("a check character
satisfying the mod-11 weighted checksum, with X for the value 10" and
"check digit = (10 - (weighted sum of the first 12) mod 10) mod 10"). -/

def digitVal (c : Char) : Nat := c.toNat - 48

def cleanIsbn (s : String) : List Char :=
  s.toList.filter (fun c => !(isPySpace c || c = '-'))

def isbn10wsum (l : List Char) : Nat :=
  ((l.take 9).enum.map (fun p => digitVal p.2 * (10 - p.1))).sum

def checkDigitChar (k : Nat) : Char :=
  if k = 1 then 'X' else if k = 0 then '0' else Nat.digitChar (11 - k)

def isbn10code (l : List Char) : Bool :=
  if l.length ≠ 10 then false
  else if ¬ ((l.take 9).all Char.isDigit &&
      ((l.getD 9 ' ').isDigit || (l.getD 9 ' ').toUpper = 'X')) then false
  else decide ((l.getD 9 ' ').toUpper = checkDigitChar (isbn10wsum l % 11))

def isbn10CharVal (c : Char) : Nat :=
  if c.toUpper = 'X' then 10 else digitVal c

def isbn10spec (l : List Char) : Bool :=
  decide (l.length = 10) && (l.take 9).all Char.isDigit &&
  ((l.getD 9 ' ').isDigit || (l.getD 9 ' ').toUpper = 'X') &&
  decide ((isbn10wsum l + isbn10CharVal (l.getD 9 ' ')) % 11 = 0)

def isbn13wsum (l : List Char) : Nat :=
  ((l.take 12).enum.map (fun p => digitVal p.2 * (if p.1 % 2 = 0 then 1 else 3))).sum

def isbn13code (l : List Char) : Bool :=
  if l.length ≠ 13 then false
  else if ¬ l.all Char.isDigit then false
  else decide (digitVal (l.getD 12 ' ') = (10 - isbn13wsum l % 10) % 10)

def isbn13spec (l : List Char) : Bool :=
  decide (l.length = 13) && l.all Char.isDigit &&
  decide (digitVal (l.getD 12 ' ') = (10 - isbn13wsum l % 10) % 10)

def isbnOk (s : String) : Bool :=
  isbn10code (cleanIsbn s) || isbn13code (cleanIsbn s)

theorem char_eq_iff_toNat (a b : Char) : a = b ↔ a.toNat = b.toNat :=
  ⟨fun h => by rw [h], fun h => Char.ext (UInt32.ext h)⟩

theorem digit_toUpper (c : Char) (h : c.isDigit = true) : c.toUpper = c := by
  simp [Char.isDigit, decide_eq_true_iff] at h
  obtain ⟨h1, h2⟩ := h
  have hn : c.toNat ≤ 57 := by
    simpa [Char.toNat, UInt32.le_def, Fin.le_def] using h2
  simp [Char.toUpper]
  omega

theorem digit_bounds (c : Char) (h : c.isDigit = true) :
    48 ≤ c.toNat ∧ c.toNat ≤ 57 := by
  simp [Char.isDigit, decide_eq_true_iff] at h
  obtain ⟨h1, h2⟩ := h
  constructor
  · simpa [Char.toNat, UInt32.le_def, Fin.le_def] using h1
  · simpa [Char.toNat, UInt32.le_def, Fin.le_def] using h2

theorem checkDigit_toNat (k : Nat) (hk : k < 11) :
    (checkDigitChar k).toNat =
      if k = 1 then 88 else if k = 0 then 48 else 48 + (11 - k) := by
  interval_cases k <;> rfl

theorem isbn10_core (c : Char) (w : Nat)
    (hg : c.isDigit = true ∨ c.toUpper = 'X') :
    (c.toUpper = checkDigitChar (w % 11)) ↔
      ((w + isbn10CharVal c) % 11 = 0) := by
  have hklt : w % 11 < 11 := Nat.mod_lt _ (by omega)
  rcases eq_or_ne c.toUpper 'X' with hx | hx
  · rw [hx, isbn10CharVal, if_pos hx, char_eq_iff_toNat, checkDigit_toNat _ hklt]
    have h88 : ('X' : Char).toNat = 88 := rfl
    rw [h88]
    have hkeq : w % 11 = w % 11 := rfl
    split_ifs <;> omega
  · have hd : c.isDigit = true := by tauto
    have hup : c.toUpper = c := digit_toUpper c hd
    have hn := digit_bounds c hd
    rw [hup, isbn10CharVal, if_neg hx, char_eq_iff_toNat, checkDigit_toNat _ hklt]
    unfold digitVal
    split_ifs <;> omega

theorem isbn10_eq (l : List Char) : isbn10code l = isbn10spec l := by
  unfold isbn10code isbn10spec
  by_cases h1 : l.length = 10
  · rw [if_neg (by simp [h1])]
    cases hA : (l.take 9).all Char.isDigit with
    | false =>
      rw [if_pos (by simp [hA])]
      simp only [hA, h1, decide_True, Bool.true_and, Bool.false_and, Bool.and_false]
    | true =>
      cases hB : ((l.getD 9 ' ').isDigit || decide ((l.getD 9 ' ').toUpper = 'X')) with
      | false =>
        rw [if_pos (by simp [hA, hB])]
        simp only [hA, hB, h1, decide_True, Bool.true_and, Bool.and_true,
          Bool.false_and, Bool.and_false]
      | true =>
        have hg : (l.getD 9 ' ').isDigit = true ∨ (l.getD 9 ' ').toUpper = 'X' := by
          simpa [Bool.or_eq_true, decide_eq_true_iff] using hB
        have hcore := isbn10_core (l.getD 9 ' ') (isbn10wsum l) hg
        rw [if_neg (by simp [hA, hB])]
        simp only [hA, hB, h1, decide_True, Bool.true_and, Bool.and_true]
        exact decide_eq_decide.mpr hcore
  · rw [if_pos (by simpa using h1)]
    simp [h1]

theorem isbn13_eq (l : List Char) : isbn13code l = isbn13spec l := by
  by_cases h1 : l.length = 13
  · by_cases h2 : l.all Char.isDigit = true
    · simp [isbn13code, isbn13spec, h1, h2]
    · simp [isbn13code, isbn13spec, h1, h2]
  · simp [isbn13code, isbn13spec, h1]

/-! ### Enumerations (src/models/book.py, member.py, transaction.py) -/

/-- `BookStatus` from src/models/book.py. -/
inductive BookStatus | available | borrowed | reserved | maintenance | lost
deriving DecidableEq, Repr

/-- Serialized string value of a `BookStatus`. -/
def BookStatus.value : BookStatus → String
  | .available => "available"
  | .borrowed => "borrowed"
  | .reserved => "reserved"
  | .maintenance => "maintenance"
  | .lost => "lost"

/-- Python `BookStatus(s)`: parse a status string, `none` models `ValueError`. -/
def BookStatus.ofValue (s : String) : Option BookStatus :=
  if s = "available" then some .available
  else if s = "borrowed" then some .borrowed
  else if s = "reserved" then some .reserved
  else if s = "maintenance" then some .maintenance
  else if s = "lost" then some .lost
  else none

/-- `BookCategory` from src/models/book.py. -/
inductive BookCategory
  | fiction | nonFiction | science | history | biography | technology
  | education | children | other
deriving DecidableEq, Repr

/-- Serialized string value of a `BookCategory`. -/
def BookCategory.value : BookCategory → String
  | .fiction => "fiction"
  | .nonFiction => "non_fiction"
  | .science => "science"
  | .history => "history"
  | .biography => "biography"
  | .technology => "technology"
  | .education => "education"
  | .children => "children"
  | .other => "other"

/-- Python `BookCategory(s)`. -/
def BookCategory.ofValue (s : String) : Option BookCategory :=
  if s = "fiction" then some .fiction
  else if s = "non_fiction" then some .nonFiction
  else if s = "science" then some .science
  else if s = "history" then some .history
  else if s = "biography" then some .biography
  else if s = "technology" then some .technology
  else if s = "education" then some .education
  else if s = "children" then some .children
  else if s = "other" then some .other
  else none

/-- `MembershipType` from src/models/member.py. -/
inductive MembershipType | student | faculty | staff | public | premium
deriving DecidableEq, Repr

/-- Serialized string value of a `MembershipType`. -/
def MembershipType.value : MembershipType → String
  | .student => "student"
  | .faculty => "faculty"
  | .staff => "staff"
  | .public => "public"
  | .premium => "premium"

/-- Python `MembershipType(s)`. -/
def MembershipType.ofValue (s : String) : Option MembershipType :=
  if s = "student" then some .student
  else if s = "faculty" then some .faculty
  else if s = "staff" then some .staff
  else if s = "public" then some .public
  else if s = "premium" then some .premium
  else none

/-- `MemberStatus` from src/models/member.py. -/
inductive MemberStatus | active | suspended | expired | blocked
deriving DecidableEq, Repr

/-- Serialized string value of a `MemberStatus`. -/
def MemberStatus.value : MemberStatus → String
  | .active => "active"
  | .suspended => "suspended"
  | .expired => "expired"
  | .blocked => "blocked"

/-- Python `MemberStatus(s)`. -/
def MemberStatus.ofValue (s : String) : Option MemberStatus :=
  if s = "active" then some .active
  else if s = "suspended" then some .suspended
  else if s = "expired" then some .expired
  else if s = "blocked" then some .blocked
  else none

/-- `TransactionType` from src/models/transaction.py (`returnTx` is the
Python member `RETURN`, renamed because `return` is a Lean keyword). -/
inductive TransactionType
  | borrow | returnTx | renew | reserve | cancelReservation | finePayment
  | lostBook
deriving DecidableEq, Repr

/-- Serialized string value of a `TransactionType`. -/
def TransactionType.value : TransactionType → String
  | .borrow => "borrow"
  | .returnTx => "return"
  | .renew => "renew"
  | .reserve => "reserve"
  | .cancelReservation => "cancel_reservation"
  | .finePayment => "fine_payment"
  | .lostBook => "lost_book"

/-- Python `TransactionType(s)`. -/
def TransactionType.ofValue (s : String) : Option TransactionType :=
  if s = "borrow" then some .borrow
  else if s = "return" then some .returnTx
  else if s = "renew" then some .renew
  else if s = "reserve" then some .reserve
  else if s = "cancel_reservation" then some .cancelReservation
  else if s = "fine_payment" then some .finePayment
  else if s = "lost_book" then some .lostBook
  else none

/-- `TransactionStatus` from src/models/transaction.py (the source also
declares an `OVERDUE` value that no operation ever assigns). -/
inductive TransactionStatus | pending | completed | cancelled | failed | overdue
deriving DecidableEq, Repr

/-- Serialized string value of a `TransactionStatus`. -/
def TransactionStatus.value : TransactionStatus → String
  | .pending => "pending"
  | .completed => "completed"
  | .cancelled => "cancelled"
  | .failed => "failed"
  | .overdue => "overdue"

/-- Python `TransactionStatus(s)`. -/
def TransactionStatus.ofValue (s : String) : Option TransactionStatus :=
  if s = "pending" then some .pending
  else if s = "completed" then some .completed
  else if s = "cancelled" then some .cancelled
  else if s = "failed" then some .failed
  else if s = "overdue" then some .overdue
  else none

/-! ### Book (src/models/book.py) -/

/-- One entry of `Book._borrow_history`, as appended by `Book.return_book`. -/
structure BorrowRecord where
  memberId : Option String
  borrowedDate : Option Int
  returnedDate : Int
  dueDate : Option Int
  wasOverdue : Bool
deriving DecidableEq, Repr

/-- The `Book` entity.  `id`, `created_at`, `updated_at` come from
`BaseEntity` (src/models/base.py). -/
structure Book where
  id : String
  title : String
  author : String
  isbn : String
  category : BookCategory
  publicationYear : Option Int
  publisher : String
  pages : Int
  description : String
  status : BookStatus
  borrowedBy : Option String
  borrowedDate : Option Int
  dueDate : Option Int
  borrowHistory : List BorrowRecord
  createdAt : Int
  updatedAt : Int
deriving DecidableEq, Repr

/-- `Book.__init__`: strips the string arguments, status starts `available`,
borrower fields start null.  The generated UUID is the `id` argument. -/
def mkBook (now : Int) (id title author isbn : String)
    (category : BookCategory) (publicationYear : Option Int)
    (publisher : String) (pages : Int) (description : String) : Book :=
  { id := id, title := pstrip title, author := pstrip author,
    isbn := pstrip isbn, category := category,
    publicationYear := publicationYear, publisher := pstrip publisher,
    pages := pages, description := pstrip description,
    status := .available, borrowedBy := none, borrowedDate := none,
    dueDate := none, borrowHistory := [], createdAt := now, updatedAt := now }

/-- `Book.is_available`. -/
def Book.isAvailable (b : Book) : Bool :=
  b.status == .available

/-- `Book.borrow(member_id, due_date)`: the `Bool` is the Python return
value, the `Book` the state of the object after the call. -/
def Book.borrow (memberId : String) (dueDate now : Int) (b : Book) :
    Bool × Book :=
  if ¬ b.isAvailable then (false, b)
  else
    (true, { b with
        status := .borrowed, borrowedBy := some memberId,
        borrowedDate := some now, dueDate := some dueDate,
        updatedAt := now })

/-- `Book.return_book()`: appends a history entry, then clears the borrower
fields and sets the status back to available. -/
def Book.returnBook (now : Int) (b : Book) : Bool × Book :=
  if b.status ≠ .borrowed then (false, b)
  else
    (true, { b with
      borrowHistory := b.borrowHistory ++
        [{ memberId := b.borrowedBy, borrowedDate := b.borrowedDate,
           returnedDate := now, dueDate := b.dueDate,
           wasOverdue := match b.dueDate with
             | some d => now > d
             | none => false }],
      status := .available, borrowedBy := none, borrowedDate := none,
      dueDate := none, updatedAt := now })

/-- `Book.set_status(status)`: rejected while borrowed unless the target is
available; clears the borrower fields when the target is available. -/
def Book.setStatus (s : BookStatus) (now : Int) (b : Book) : Bool × Book :=
  if b.status = .borrowed ∧ s ≠ .available then (false, b)
  else if s = .available then
    (true, { b with
        status := s, borrowedBy := none, borrowedDate := none,
        dueDate := none, updatedAt := now })
  else (true, { b with status := s, updatedAt := now })

/-- `Book.title` setter; `none` models the raised `ValueError`. -/
def Book.setTitle (v : String) (now : Int) (b : Book) : Option Book :=
  if pstrip v = "" then none
  else some { b with title := pstrip v, updatedAt := now }

/-- `Book.author` setter. -/
def Book.setAuthor (v : String) (now : Int) (b : Book) : Option Book :=
  if pstrip v = "" then none
  else some { b with author := pstrip v, updatedAt := now }

/-- `Book.isbn` setter. -/
def Book.setIsbn (v : String) (now : Int) (b : Book) : Option Book :=
  if pstrip v = "" then none
  else some { b with isbn := pstrip v, updatedAt := now }

/-- `Book.category` setter (the `isinstance` check cannot fail here). -/
def Book.setCategory (v : BookCategory) (now : Int) (b : Book) : Option Book :=
  some { b with category := v, updatedAt := now }

/-- `Book.publication_year` setter: the range check is skipped for a falsy
value (`None` or `0`). -/
def Book.setPublicationYear (v : Option Int) (currentYear now : Int)
    (b : Book) : Option Book :=
  match v with
  | none => some { b with publicationYear := none, updatedAt := now }
  | some y =>
    if y ≠ 0 ∧ (y < 0 ∨ y > currentYear) then none
    else some { b with publicationYear := some y, updatedAt := now }

/-- `Book.publisher` setter. -/
def Book.setPublisher (v : String) (now : Int) (b : Book) : Option Book :=
  some { b with publisher := pstrip v, updatedAt := now }

/-- `Book.pages` setter. -/
def Book.setPages (v : Int) (now : Int) (b : Book) : Option Book :=
  if v < 0 then none
  else some { b with pages := v, updatedAt := now }

/-- `Book.description` setter. -/
def Book.setDescription (v : String) (now : Int) (b : Book) : Option Book :=
  some { b with description := pstrip v, updatedAt := now }

/-- `Book.get_validation_errors()`.  `currentYear` is `datetime.now().year`;
the publication-year check is skipped for a falsy (null or zero) year. -/
def Book.getValidationErrors (currentYear : Int) (b : Book) : List String :=
  (if pstrip b.title = "" then ["Title is required"] else []) ++
  (if pstrip b.author = "" then ["Author is required"] else []) ++
  (if pstrip b.isbn = "" then ["ISBN is required"] else []) ++
  (match b.publicationYear with
   | some y =>
     if y ≠ 0 ∧ (y < 0 ∨ y > currentYear) then
       ["Publication year must be between 0 and current year"]
     else []
   | none => []) ++
  (if b.pages < 0 then ["Pages cannot be negative"] else [])

/-- `Book.validate()`. -/
def Book.validate (currentYear : Int) (b : Book) : Bool :=
  (b.getValidationErrors currentYear).isEmpty
/-! ### ContactInfo and Member (src/models/member.py) -/

/-- `ContactInfo._is_valid_email`: full match of the pattern
`[a-zA-Z0-9._%+-]+@[a-zA-Z0-9.-]+\\.[a-zA-Z]{2,}`, expressed as the
existence of a decomposition (regex backtracking semantics). -/
def emailLocalChar (c : Char) : Bool :=
  c.isAlpha || c.isDigit || c = '.' || c = '_' || c = '%' || c = '+' || c = '-'

/-- Character class `[a-zA-Z0-9.-]` of the email domain part. -/
def emailDomainChar (c : Char) : Bool :=
  c.isAlpha || c.isDigit || c = '.' || c = '-'

/-- Matches `[a-zA-Z0-9.-]+\\.[a-zA-Z]{2,}` against `l`: some split at a
dot with a nonempty domain-char prefix and an alphabetic tail of length
at least 2. -/
def emailDomainOk (l : List Char) : Bool :=
  (List.range l.length).any fun i =>
    l.getD i ' ' = '.' && decide (0 < i) && (l.take i).all emailDomainChar &&
    decide (2 ≤ l.length - (i + 1)) && (l.drop (i + 1)).all Char.isAlpha

/-- The email regex accepts `l`. -/
def emailOk (l : List Char) : Bool :=
  (List.range l.length).any fun i =>
    l.getD i ' ' = '@' && decide (0 < i) && (l.take i).all emailLocalChar &&
    emailDomainOk (l.drop (i + 1))

/-- `ContactInfo._is_valid_email`. -/
def isValidEmail (s : String) : Bool :=
  emailOk s.toList

/-- `ContactInfo._is_valid_phone`: strip `[\\s\\-\\(\\)]`, then all digits and
length between 10 and 15. -/
def isValidPhone (s : String) : Bool :=
  let cleaned := s.toList.filter fun c =>
    !(isPySpace c || c = '-' || c = '(' || c = ')')
  cleaned.all Char.isDigit && decide (10 ≤ cleaned.length) &&
    decide (cleaned.length ≤ 15)

/-- The `ContactInfo` value object. -/
structure ContactInfo where
  email : String
  phone : String
  address : String
deriving DecidableEq, Repr

/-- `ContactInfo.__init__`: strips the three strings and performs NO
format validation. -/
def mkContactInfo (email phone address : String) : ContactInfo :=
  { email := pstrip email, phone := pstrip phone, address := pstrip address }

/-- Free-form reservation-history entries: never constructed by the code,
only carried through (de)serialization; modelled as key-value lists. -/
abbrev ResRecord := List (String × String)

/-- The `Member` entity. -/
structure Member where
  id : String
  firstName : String
  lastName : String
  membershipType : MembershipType
  dateOfBirth : Option PyDate
  studentId : String
  contactInfo : ContactInfo
  status : MemberStatus
  membershipStartDate : PyDate
  membershipEndDate : PyDate
  borrowedBooks : List String
  reservationHistory : List ResRecord
  fineAmount : ℚ
  maxBooksAllowed : Int
  createdAt : Int
  updatedAt : Int
deriving DecidableEq, Repr

/-- `Member._get_max_books_for_type()`. -/
def maxBooksFor : MembershipType → Int
  | .student => 5
  | .faculty => 15
  | .staff => 10
  | .premium => 20
  | .public => 3

/-- `Member._calculate_membership_end_date()`: adds the type-dependent
number of years to the start date. -/
def calcMembershipEnd (start : PyDate) : MembershipType → PyDate
  | .student => start.addYears 1
  | .faculty => start.addYears 3
  | .staff => start.addYears 2
  | .premium => start.addYears 1
  | .public => start.addYears 1

/-- `Member.__init__`: status starts active, membership starts today and
ends after the type-derived duration, no books borrowed, no fine. -/
def mkMember (now : Int) (today : PyDate) (id firstName lastName : String)
    (membershipType : MembershipType) (dateOfBirth : Option PyDate)
    (studentId : String) (contactInfo : ContactInfo) : Member :=
  { id := id, firstName := pstrip firstName, lastName := pstrip lastName,
    membershipType := membershipType, dateOfBirth := dateOfBirth,
    studentId := pstrip studentId, contactInfo := contactInfo,
    status := .active, membershipStartDate := today,
    membershipEndDate := calcMembershipEnd today membershipType,
    borrowedBooks := [], reservationHistory := [], fineAmount := 0,
    maxBooksAllowed := maxBooksFor membershipType,
    createdAt := now, updatedAt := now }

/-- `Member.is_active()`. -/
def Member.isActive (m : Member) : Bool :=
  m.status == .active

/-- `Member.is_membership_valid()`: `date.today() <= end date`. -/
def Member.isMembershipValid (today : PyDate) (m : Member) : Bool :=
  today.le m.membershipEndDate

/-- `Member.borrowed_books_count`. -/
def Member.borrowedBooksCount (m : Member) : Int :=
  m.borrowedBooks.length

/-- `Member.can_borrow_books()`. -/
def Member.canBorrowBooks (today : PyDate) (m : Member) : Bool :=
  m.isActive && m.isMembershipValid today &&
    decide (m.borrowedBooksCount < m.maxBooksAllowed) &&
    decide (m.fineAmount = 0)

/-- `Member.borrow_book(book_id)`. -/
def Member.borrowBook (today : PyDate) (now : Int) (bookId : String)
    (m : Member) : Bool × Member :=
  if ¬ m.canBorrowBooks today then (false, m)
  else if bookId ∈ m.borrowedBooks then (false, m)
  else (true, { m with
        borrowedBooks := m.borrowedBooks ++ [bookId], updatedAt := now })

/-- `Member.return_book(book_id)`: `list.remove` drops the first
occurrence. -/
def Member.returnBook (bookId : String) (now : Int) (m : Member) :
    Bool × Member :=
  if bookId ∉ m.borrowedBooks then (false, m)
  else (true, { m with
        borrowedBooks := m.borrowedBooks.erase bookId, updatedAt := now })

/-- `Member.add_fine(amount)`: raises (modelled as returning the member
unchanged) on a negative amount. -/
def Member.addFine (amount : ℚ) (now : Int) (m : Member) : Member :=
  if amount < 0 then m
  else { m with fineAmount := m.fineAmount + amount, updatedAt := now }

/-- `Member.pay_fine(amount)`: clamps the balance at 0; raises on a
negative amount (modelled as returning the member unchanged). -/
def Member.payFine (amount : ℚ) (now : Int) (m : Member) : Member :=
  if amount < 0 then m
  else { m with fineAmount := max 0 (m.fineAmount - amount), updatedAt := now }

/-- `Member.suspend_membership()`. -/
def Member.suspendMembership (now : Int) (m : Member) : Member :=
  { m with status := .suspended, updatedAt := now }

/-- `Member.reactivate_membership()`. -/
def Member.reactivateMembership (today : PyDate) (now : Int) (m : Member) :
    Bool × Member :=
  if m.status = .suspended ∧ m.isMembershipValid today then
    (true, { m with status := .active, updatedAt := now })
  else (false, m)

/-- `Member.renew_membership(duration_years)`: raises on a non-positive
duration (modelled as no change). -/
def Member.renewMembership (durationYears : Int) (now : Int) (m : Member) :
    Member :=
  if durationYears ≤ 0 then m
  else
    { m with
      membershipEndDate := m.membershipEndDate.addYears durationYears,
      status := if m.status = .expired then .active else m.status,
      updatedAt := now }

/-- `Member.first_name` setter. -/
def Member.setFirstName (v : String) (now : Int) (m : Member) :
    Option Member :=
  if pstrip v = "" then none
  else some { m with firstName := pstrip v, updatedAt := now }

/-- `Member.last_name` setter. -/
def Member.setLastName (v : String) (now : Int) (m : Member) :
    Option Member :=
  if pstrip v = "" then none
  else some { m with lastName := pstrip v, updatedAt := now }

/-- `Member.membership_type` setter: recomputes the membership end date and
the maximum number of books. -/
def Member.setMembershipType (v : MembershipType) (now : Int) (m : Member) :
    Option Member :=
  some { m with
    membershipType := v,
    membershipEndDate := calcMembershipEnd m.membershipStartDate v,
    maxBooksAllowed := maxBooksFor v, updatedAt := now }

/-- `Member.date_of_birth` setter: raises on a future date. -/
def Member.setDateOfBirth (v : Option PyDate) (today : PyDate) (now : Int)
    (m : Member) : Option Member :=
  match v with
  | some d => if today.lt d then none
      else some { m with dateOfBirth := some d, updatedAt := now }
  | none => some { m with dateOfBirth := none, updatedAt := now }

/-- `Member.student_id` setter. -/
def Member.setStudentId (v : String) (now : Int) (m : Member) :
    Option Member :=
  some { m with studentId := pstrip v, updatedAt := now }

/-- `Member.contact_info` setter: only an `isinstance` check, which cannot
fail here. -/
def Member.setContactInfo (v : ContactInfo) (now : Int) (m : Member) :
    Option Member :=
  some { m with contactInfo := v, updatedAt := now }

/-- `Member.get_validation_errors()`: the contact-info checks re-run the
`ContactInfo` setters inside one `try`, so only the first failing check
contributes its message. -/
def Member.getValidationErrors (today : PyDate) (m : Member) : List String :=
  (if pstrip m.firstName = "" then ["First name is required"] else []) ++
  (if pstrip m.lastName = "" then ["Last name is required"] else []) ++
  (match m.dateOfBirth with
   | some d => if today.lt d then ["Date of birth cannot be in the future"]
       else []
   | none => []) ++
  (if m.fineAmount < 0 then ["Fine amount cannot be negative"] else []) ++
  (if m.contactInfo.email ≠ "" ∧ ¬ isValidEmail m.contactInfo.email then
    ["Invalid email format"]
   else if m.contactInfo.phone ≠ "" ∧ ¬ isValidPhone m.contactInfo.phone then
    ["Invalid phone format"]
   else [])

/-- `Member.validate()`. -/
def Member.validate (today : PyDate) (m : Member) : Bool :=
  (m.getValidationErrors today).isEmpty
/-! ### Transaction (src/models/transaction.py) -/

/-- The `Transaction` entity. -/
structure Transaction where
  id : String
  memberId : String
  transactionType : TransactionType
  bookId : Option String
  amount : ℚ
  dueDate : Option Int
  notes : String
  status : TransactionStatus
  processedBy : Option String
  processedAt : Option Int
  parentTransactionId : Option String
  fineAmount : ℚ
  returnDate : Option Int
  createdAt : Int
  updatedAt : Int
deriving DecidableEq, Repr

/-- `Transaction.__init__`: strips ids and notes, an empty or missing book
id becomes null, status starts pending, and a borrow transaction without a
due date gets the default `now + 14 days`. -/
def mkTransaction (now : Int) (id memberId : String)
    (transactionType : TransactionType) (bookId : Option String)
    (amount : ℚ) (dueDate : Option Int) (notes : String) : Transaction :=
  { id := id, memberId := pstrip memberId,
    transactionType := transactionType,
    bookId := match bookId with
      | some s => if s = "" then none else some (pstrip s)
      | none => none,
    amount := amount,
    dueDate := match dueDate with
      | some d => some d
      | none =>
        if transactionType = .borrow then some (now + 14 * 86400) else none,
    notes := pstrip notes, status := .pending, processedBy := none,
    processedAt := none, parentTransactionId := none, fineAmount := 0,
    returnDate := none, createdAt := now, updatedAt := now }

/-- `Transaction.is_overdue`: requires a due date and completed status, and
only a borrow transaction can be overdue; the effective end is the return
date, or `now` when the book is still out. -/
def Transaction.isOverdue (now : Int) (t : Transaction) : Bool :=
  match t.dueDate with
  | none => false
  | some due =>
    if t.status ≠ .completed then false
    else if t.transactionType = .borrow then
      match t.returnDate with
      | some rd => rd > due
      | none => now > due
    else false

/-- `Transaction.days_overdue`. -/
def Transaction.daysOverdue (now : Int) (t : Transaction) : Int :=
  if ¬ t.isOverdue now ∨ t.dueDate = none then 0
  else
    let endDate := match t.returnDate with
      | some rd => rd
      | none => now
    tdDays (endDate - t.dueDate.getD 0)

/-- `Transaction.calculate_fine(daily_fine_rate)`: the progressive
schedule, rounded to 2 decimal places. -/
def Transaction.calculateFine (now : Int) (dailyFineRate : ℚ)
    (t : Transaction) : ℚ :=
  if ¬ t.isOverdue now then 0
  else
    let daysOverdue := t.daysOverdue now
    if daysOverdue ≤ 0 then 0
    else
      let fine : ℚ :=
        if daysOverdue ≤ 7 then daysOverdue * dailyFineRate
        else if daysOverdue ≤ 30 then
          7 * dailyFineRate + (daysOverdue - 7) * (dailyFineRate * 1.5)
        else
          7 * dailyFineRate + 23 * (dailyFineRate * 1.5) +
            (daysOverdue - 30) * (dailyFineRate * 2.0)
      round2 fine

/-- `Transaction.process_transaction(processed_by)`: pending → completed;
a return transaction also gets a return date and a fine computed with the
DEFAULT daily rate 1.0. -/
def Transaction.processTransaction (processedBy : String) (now : Int)
    (t : Transaction) : Bool × Transaction :=
  if t.status ≠ .pending then (false, t)
  else
    let t1 := { t with
      status := TransactionStatus.completed,
      processedBy := some (pstrip processedBy), processedAt := some now }
    if t.transactionType = .returnTx then
      let t2 := { t1 with returnDate := some now }
      (true, { t2 with
          fineAmount := t2.calculateFine now 1.0,
          updatedAt := now })
    else (true, { t1 with updatedAt := now })

/-- `Transaction.cancel_transaction(reason)`: allowed from pending AND from
failed; appends the reason to the notes. -/
def Transaction.cancelTransaction (reason : String) (now : Int)
    (t : Transaction) : Bool × Transaction :=
  if t.status ≠ .pending ∧ t.status ≠ .failed then (false, t)
  else
    (true, { t with
      status := TransactionStatus.cancelled,
      notes := if reason ≠ "" then
          pstrip (t.notes ++ "\nCancelled: " ++ reason)
        else t.notes,
      updatedAt := now })

/-- `Transaction.fail_transaction(reason)`: pending → failed. -/
def Transaction.failTransaction (reason : String) (now : Int)
    (t : Transaction) : Bool × Transaction :=
  if t.status ≠ .pending then (false, t)
  else
    (true, { t with
      status := TransactionStatus.failed,
      notes := if reason ≠ "" then
          pstrip (t.notes ++ "\nFailed: " ++ reason)
        else t.notes,
      updatedAt := now })
/-! ### LibraryService (src/services/library_service.py)

State touched by one `borrow_book`/`return_book` call: the member object,
the book object, and the transaction store (a keyed map modelled as the
list of stored transactions, insertion = append).  `_save_data` writes a
snapshot to disk and does not change any entity, so it is not part of the
state transition; for the update operations a `saved` flag records whether
it ran. -/

/-- Wall clock of one service call: `datetime.now()` and `date.today()`. -/
structure Clock where
  now : Int
  today : PyDate
deriving DecidableEq, Repr

/-- Service configuration (`default_borrow_days`, `max_renewals`,
`daily_fine_rate`, defaults 14 / 2 / 1.0). -/
structure Config where
  defaultBorrowDays : Int
  maxRenewals : Int
  dailyFineRate : ℚ
deriving DecidableEq, Repr

/-- Which `TransactionError` (or impossible failure branch) a borrow call
raised. -/
inductive BorrowErr
  | cannotBorrow | bookNotAvailable | processFailed | bookUpdateFailed
  | memberUpdateFailed
deriving DecidableEq, Repr

/-- Python outcome of `LibraryService.borrow_book`: the returned
transaction or the raised error. -/
inductive BorrowRes
  | ok (t : Transaction)
  | err (e : BorrowErr)
deriving DecidableEq, Repr

/-- State of the three touched entities after a `borrow_book` call together
with its outcome. -/
structure BorrowOutcome where
  member : Member
  book : Book
  txns : List Transaction
  result : BorrowRes
deriving DecidableEq, Repr

/-- `LibraryService.borrow_book(member_id, book_id)`.  `txnId` stands for
the UUID generated for the new transaction. -/
def borrowBookSvc (cfg : Config) (clock : Clock) (m : Member) (b : Book)
    (txns : List Transaction) (txnId processedBy : String) : BorrowOutcome :=
  if ¬ m.canBorrowBooks clock.today then ⟨m, b, txns, .err .cannotBorrow⟩
  else if ¬ b.isAvailable then ⟨m, b, txns, .err .bookNotAvailable⟩
  else
    let due := clock.now + cfg.defaultBorrowDays * 86400
    let t := mkTransaction clock.now txnId m.id .borrow (some b.id) 0
      (some due) ""
    let p := t.processTransaction processedBy clock.now
    if ¬ p.1 then ⟨m, b, txns, .err .processFailed⟩
    else
      let bb := b.borrow m.id due clock.now
      if ¬ bb.1 then ⟨m, bb.2, txns, .err .bookUpdateFailed⟩
      else
        let mb := m.borrowBook clock.today clock.now b.id
        if ¬ mb.1 then
          let rolled := (bb.2.returnBook clock.now).2
          ⟨mb.2, rolled, txns, .err .memberUpdateFailed⟩
        else ⟨mb.2, bb.2, txns ++ [p.2], .ok p.2⟩

/-- Which `TransactionError` a return call raised. -/
inductive ReturnErr
  | notBorrowedByMember | borrowerMismatch | processFailed
  | bookUpdateFailed | memberUpdateFailed
deriving DecidableEq, Repr

/-- Python outcome of `LibraryService.return_book`: the `(transaction,
fine_amount)` pair or the raised error. -/
inductive ReturnRes
  | ok (t : Transaction) (fine : ℚ)
  | err (e : ReturnErr)
deriving DecidableEq, Repr

/-- State after a `return_book` call together with its outcome. -/
structure ReturnOutcome where
  member : Member
  book : Book
  txns : List Transaction
  result : ReturnRes
deriving DecidableEq, Repr

/-- `LibraryService.return_book(member_id, book_id)`: creates a RETURN
transaction (with no due date), processes it, computes the fine from that
transaction, adds it to the member when positive, then mutates the book
and the member. -/
def returnBookSvc (cfg : Config) (clock : Clock) (m : Member) (b : Book)
    (txns : List Transaction) (txnId processedBy : String) : ReturnOutcome :=
  if b.id ∉ m.borrowedBooks then ⟨m, b, txns, .err .notBorrowedByMember⟩
  else if b.borrowedBy ≠ some m.id then ⟨m, b, txns, .err .borrowerMismatch⟩
  else
    let t := mkTransaction clock.now txnId m.id .returnTx (some b.id) 0
      none ""
    let p := t.processTransaction processedBy clock.now
    if ¬ p.1 then ⟨m, b, txns, .err .processFailed⟩
    else
      let fineAmount := p.2.calculateFine clock.now cfg.dailyFineRate
      let m1 := if fineAmount > 0 then m.addFine fineAmount clock.now else m
      let t1 := if fineAmount > 0 then { p.2 with fineAmount := fineAmount }
        else p.2
      let br := b.returnBook clock.now
      if ¬ br.1 then ⟨m1, b, txns, .err .bookUpdateFailed⟩
      else
        let mr := m1.returnBook b.id clock.now
        if ¬ mr.1 then ⟨mr.2, br.2, txns, .err .memberUpdateFailed⟩
        else ⟨mr.2, br.2, txns ++ [t1], .ok t1 fineAmount⟩

/-! ### update_member / update_book (src/services/library_service.py)

The kwargs of an update call, restricted to the updatable fields.  Python
applies them in the caller's dict order; the model fixes the declaration
order, which only affects which setter raises first. -/

/-- Field changes requested from `update_member`. -/
structure MemberUpdate where
  firstName : Option String := none
  lastName : Option String := none
  membershipType : Option MembershipType := none
  dateOfBirth : Option (Option PyDate) := none
  studentId : Option String := none
  contactInfo : Option ContactInfo := none
deriving DecidableEq, Repr

/-- Apply one optional setter to an (entity, no-exception-yet) pair:
after a raise the remaining setters do not run. -/
def applySetter {α : Type} (st : α × Bool) (f : α → Option α) : α × Bool :=
  if st.2 then
    match f st.1 with
    | some x => (x, true)
    | none => (st.1, false)
  else st

/-- The `setattr` loop of `update_member`: entity state after applying the
requested field setters, `false` when one of them raised. -/
def applyMemberFields (today : PyDate) (now : Int) (m : Member)
    (r : MemberUpdate) : Member × Bool :=
  let s0 := (m, true)
  let s1 := match r.firstName with
    | some v => applySetter s0 (Member.setFirstName v now)
    | none => s0
  let s2 := match r.lastName with
    | some v => applySetter s1 (Member.setLastName v now)
    | none => s1
  let s3 := match r.membershipType with
    | some v => applySetter s2 (Member.setMembershipType v now)
    | none => s2
  let s4 := match r.dateOfBirth with
    | some v => applySetter s3 (Member.setDateOfBirth v today now)
    | none => s3
  let s5 := match r.studentId with
    | some v => applySetter s4 (Member.setStudentId v now)
    | none => s4
  match r.contactInfo with
  | some v => applySetter s5 (Member.setContactInfo v now)
  | none => s5

/-- How an update call ended. -/
inductive UpdateOutcome
  | ok
  | setterRaised
  | validationFailed (errors : List String)
deriving DecidableEq, Repr

/-- `true` exactly on the `validationFailed` outcome. -/
def UpdateOutcome.isValidationFailed : UpdateOutcome → Bool
  | .validationFailed _ => true
  | _ => false

/-- Result of an update call: the entity as left in the in-memory store,
whether `_save_data` ran, and the outcome. -/
structure UpdateResult (α : Type) where
  stored : α
  saved : Bool
  outcome : UpdateOutcome
deriving DecidableEq, Repr

/-- `LibraryService.update_member(member_id, **kwargs)`: mutates the stored
member in place via the property setters, then re-validates; on validation
failure it raises WITHOUT undoing the already-applied changes, and only a
successful validation reaches `_save_data`. -/
def updateMemberSvc (today : PyDate) (now : Int) (m : Member)
    (r : MemberUpdate) : UpdateResult Member :=
  let a := applyMemberFields today now m r
  if ¬ a.2 then ⟨a.1, false, .setterRaised⟩
  else if a.1.validate today then ⟨a.1, true, .ok⟩
  else ⟨a.1, false, .validationFailed (a.1.getValidationErrors today)⟩

/-- Field changes requested from `update_book` (`isbn` is not an updatable
field there). -/
structure BookUpdate where
  title : Option String := none
  author : Option String := none
  category : Option BookCategory := none
  publicationYear : Option (Option Int) := none
  publisher : Option String := none
  pages : Option Int := none
  description : Option String := none
deriving DecidableEq, Repr

/-- The `setattr` loop of `update_book`. -/
def applyBookFields (currentYear now : Int) (b : Book) (r : BookUpdate) :
    Book × Bool :=
  let s0 := (b, true)
  let s1 := match r.title with
    | some v => applySetter s0 (Book.setTitle v now)
    | none => s0
  let s2 := match r.author with
    | some v => applySetter s1 (Book.setAuthor v now)
    | none => s1
  let s3 := match r.category with
    | some v => applySetter s2 (Book.setCategory v now)
    | none => s2
  let s4 := match r.publicationYear with
    | some v => applySetter s3 (Book.setPublicationYear v currentYear now)
    | none => s3
  let s5 := match r.publisher with
    | some v => applySetter s4 (Book.setPublisher v now)
    | none => s4
  let s6 := match r.pages with
    | some v => applySetter s5 (Book.setPages v now)
    | none => s5
  match r.description with
  | some v => applySetter s6 (Book.setDescription v now)
  | none => s6

/-- `LibraryService.update_book(book_id, **kwargs)`: same shape as
`update_member`. -/
def updateBookSvc (currentYear now : Int) (b : Book) (r : BookUpdate) :
    UpdateResult Book :=
  let a := applyBookFields currentYear now b r
  if ¬ a.2 then ⟨a.1, false, .setterRaised⟩
  else if a.1.validate currentYear then ⟨a.1, true, .ok⟩
  else ⟨a.1, false, .validationFailed (a.1.getValidationErrors currentYear)⟩
/-! ### Serialization (Book.to_dict/from_dict, Member.to_dict/from_dict,
Transaction.to_dict/from_dict)

The dictionary records are modelled as typed structures with exactly the
keys the code writes; ISO-8601 round-tripping of timestamps is exact, so a
serialized timestamp is the timestamp itself. -/

/-- Record written by `Book.to_dict`. -/
structure BookDict where
  id : String
  title : String
  author : String
  isbn : String
  category : String
  publicationYear : Option Int
  publisher : String
  pages : Int
  description : String
  status : String
  borrowedBy : Option String
  borrowedDate : Option Int
  dueDate : Option Int
  borrowHistory : List BorrowRecord
  createdAt : Int
  updatedAt : Int
deriving DecidableEq, Repr

/-- `Book.to_dict()`. -/
def Book.toDict (b : Book) : BookDict :=
  { id := b.id, title := b.title, author := b.author, isbn := b.isbn,
    category := b.category.value, publicationYear := b.publicationYear,
    publisher := b.publisher, pages := b.pages,
    description := b.description, status := b.status.value,
    borrowedBy := b.borrowedBy, borrowedDate := b.borrowedDate,
    dueDate := b.dueDate, borrowHistory := b.borrowHistory,
    createdAt := b.createdAt, updatedAt := b.updatedAt }

/-- `Book.from_dict(data)`: invokes the constructor (which re-strips the
strings) and then overwrites the remaining fields; `none` models the
`ValueError` of an unknown enum string. -/
def Book.fromDict (now : Int) (d : BookDict) : Option Book :=
  match BookCategory.ofValue d.category, BookStatus.ofValue d.status with
  | some category, some status =>
    let b := mkBook now d.id d.title d.author d.isbn category
      d.publicationYear d.publisher d.pages d.description
    some { b with
      id := d.id, status := status, borrowedBy := d.borrowedBy,
      borrowedDate := d.borrowedDate, dueDate := d.dueDate,
      borrowHistory := d.borrowHistory, createdAt := d.createdAt,
      updatedAt := d.updatedAt }
  | _, _ => none

/-- Record written by `ContactInfo.to_dict`. -/
structure ContactDict where
  email : String
  phone : String
  address : String
deriving DecidableEq, Repr

/-- `ContactInfo.to_dict()`. -/
def ContactInfo.toDict (c : ContactInfo) : ContactDict :=
  { email := c.email, phone := c.phone, address := c.address }

/-- `ContactInfo.from_dict(data)`: calls the constructor, which strips. -/
def ContactInfo.fromDict (d : ContactDict) : ContactInfo :=
  mkContactInfo d.email d.phone d.address

/-- Record written by `Member.to_dict`. -/
structure MemberDict where
  id : String
  firstName : String
  lastName : String
  membershipType : String
  dateOfBirth : Option PyDate
  studentId : String
  contactInfo : ContactDict
  status : String
  membershipStartDate : PyDate
  membershipEndDate : PyDate
  borrowedBooks : List String
  reservationHistory : List ResRecord
  fineAmount : ℚ
  maxBooksAllowed : Int
  createdAt : Int
  updatedAt : Int
deriving DecidableEq, Repr

/-- `Member.to_dict()`. -/
def Member.toDict (m : Member) : MemberDict :=
  { id := m.id, firstName := m.firstName, lastName := m.lastName,
    membershipType := m.membershipType.value,
    dateOfBirth := m.dateOfBirth, studentId := m.studentId,
    contactInfo := m.contactInfo.toDict, status := m.status.value,
    membershipStartDate := m.membershipStartDate,
    membershipEndDate := m.membershipEndDate,
    borrowedBooks := m.borrowedBooks,
    reservationHistory := m.reservationHistory,
    fineAmount := m.fineAmount, maxBooksAllowed := m.maxBooksAllowed,
    createdAt := m.createdAt, updatedAt := m.updatedAt }

/-- `Member.from_dict(data)`: constructor (re-strips, recomputes derived
fields) then overwrites every stored field. -/
def Member.fromDict (now : Int) (today : PyDate) (d : MemberDict) :
    Option Member :=
  match MembershipType.ofValue d.membershipType,
      MemberStatus.ofValue d.status with
  | some membershipType, some status =>
    let m := mkMember now today d.id d.firstName d.lastName membershipType
      d.dateOfBirth d.studentId (ContactInfo.fromDict d.contactInfo)
    some { m with
      id := d.id, status := status,
      membershipStartDate := d.membershipStartDate,
      membershipEndDate := d.membershipEndDate,
      borrowedBooks := d.borrowedBooks,
      reservationHistory := d.reservationHistory,
      fineAmount := d.fineAmount, maxBooksAllowed := d.maxBooksAllowed,
      createdAt := d.createdAt, updatedAt := d.updatedAt }
  | _, _ => none

/-- Record written by `Transaction.to_dict` (`isOverdue`/`daysOverdue` are
derived values that `from_dict` ignores). -/
structure TxnDict where
  id : String
  memberId : String
  transactionType : String
  bookId : Option String
  amount : ℚ
  dueDate : Option Int
  notes : String
  status : String
  processedBy : Option String
  processedAt : Option Int
  parentTransactionId : Option String
  fineAmount : ℚ
  returnDate : Option Int
  isOverdue : Bool
  daysOverdue : Int
  createdAt : Int
  updatedAt : Int
deriving DecidableEq, Repr

/-- `Transaction.to_dict()` (needs the clock for the derived
`is_overdue`/`days_overdue` keys). -/
def Transaction.toDict (now : Int) (t : Transaction) : TxnDict :=
  { id := t.id, memberId := t.memberId,
    transactionType := t.transactionType.value, bookId := t.bookId,
    amount := t.amount, dueDate := t.dueDate, notes := t.notes,
    status := t.status.value, processedBy := t.processedBy,
    processedAt := t.processedAt,
    parentTransactionId := t.parentTransactionId,
    fineAmount := t.fineAmount, returnDate := t.returnDate,
    isOverdue := t.isOverdue now, daysOverdue := t.daysOverdue now,
    createdAt := t.createdAt, updatedAt := t.updatedAt }

/-- `Transaction.from_dict(data)`: constructor (which re-strips, drops an
empty book id, and re-installs the default due date for a borrow
transaction without one) followed by field overwrites. -/
def Transaction.fromDict (now : Int) (d : TxnDict) : Option Transaction :=
  match TransactionType.ofValue d.transactionType,
      TransactionStatus.ofValue d.status with
  | some transactionType, some status =>
    let t := mkTransaction now d.id d.memberId transactionType d.bookId
      d.amount d.dueDate d.notes
    some { t with
      id := d.id, status := status, processedBy := d.processedBy,
      parentTransactionId := d.parentTransactionId,
      fineAmount := d.fineAmount, processedAt := d.processedAt,
      returnDate := d.returnDate, createdAt := d.createdAt,
      updatedAt := d.updatedAt }
  | _, _ => none

/-! ### Operation sequences on a single entity (for the reachability
invariants of the claims). -/

/-- One public `Book` operation with the call-time clock. -/
inductive BookOp
  | borrow (memberId : String) (dueDate now : Int)
  | returnBook (now : Int)
  | setStatus (s : BookStatus) (now : Int)
  | setTitle (v : String) (now : Int)
  | setAuthor (v : String) (now : Int)
  | setIsbn (v : String) (now : Int)
  | setCategory (v : BookCategory) (now : Int)
  | setPublicationYear (v : Option Int) (currentYear now : Int)
  | setPublisher (v : String) (now : Int)
  | setPages (v : Int) (now : Int)
  | setDescription (v : String) (now : Int)
deriving DecidableEq, Repr

/-- Successor state of a book after one public operation (a raising setter
leaves the object unchanged). -/
def stepBook (b : Book) : BookOp → Book
  | .borrow memberId dueDate now => (b.borrow memberId dueDate now).2
  | .returnBook now => (b.returnBook now).2
  | .setStatus s now => (b.setStatus s now).2
  | .setTitle v now => (b.setTitle v now).getD b
  | .setAuthor v now => (b.setAuthor v now).getD b
  | .setIsbn v now => (b.setIsbn v now).getD b
  | .setCategory v now => (b.setCategory v now).getD b
  | .setPublicationYear v cy now => (b.setPublicationYear v cy now).getD b
  | .setPublisher v now => (b.setPublisher v now).getD b
  | .setPages v now => (b.setPages v now).getD b
  | .setDescription v now => (b.setDescription v now).getD b

/-- State of a book after a sequence of public operations. -/
def runBook (b : Book) (ops : List BookOp) : Book :=
  ops.foldl stepBook b

/-- Does this operation call `set_status` with target `borrowed`? -/
def BookOp.setsStatusBorrowed : BookOp → Bool
  | .setStatus .borrowed _ => true
  | _ => false

/-- The claimed status/borrower-fields consistency of a book, as a
decidable check. -/
def bookInv (b : Book) : Bool :=
  if b.status = .borrowed then
    b.borrowedBy.isSome && b.borrowedDate.isSome && b.dueDate.isSome
  else
    b.borrowedBy.isNone && b.borrowedDate.isNone && b.dueDate.isNone

/-- One public mutating `Member` operation with the call-time clock. -/
inductive MemberOp
  | borrowBook (bookId : String) (today : PyDate) (now : Int)
  | returnBook (bookId : String) (now : Int)
  | addFine (amount : ℚ) (now : Int)
  | payFine (amount : ℚ) (now : Int)
  | suspendMembership (now : Int)
  | reactivateMembership (today : PyDate) (now : Int)
  | renewMembership (durationYears : Int) (now : Int)
  | setMembershipType (v : MembershipType) (now : Int)
deriving DecidableEq, Repr

/-- Successor state of a member after one public operation. -/
def stepMember (m : Member) : MemberOp → Member
  | .borrowBook bookId today now => (m.borrowBook today now bookId).2
  | .returnBook bookId now => (m.returnBook bookId now).2
  | .addFine amount now => m.addFine amount now
  | .payFine amount now => m.payFine amount now
  | .suspendMembership now => m.suspendMembership now
  | .reactivateMembership today now => (m.reactivateMembership today now).2
  | .renewMembership years now => m.renewMembership years now
  | .setMembershipType v now => (m.setMembershipType v now).getD m

/-- State of a member after a sequence of public operations. -/
def runMember (m : Member) (ops : List MemberOp) : Member :=
  ops.foldl stepMember m
/-! ### Helper lemmas -/

/-- An overdue transaction has a due date. -/
theorem isOverdue_dueDate_isSome (now : Int) (t : Transaction)
    (h : t.isOverdue now = true) : t.dueDate.isSome := by
  unfold Transaction.isOverdue at h
  cases ht : t.dueDate with
  | none => rw [ht] at h; simp at h
  | some due => simp

/-- An overdue transaction compares its effective end (return date, else
`now`) strictly above its due date. -/
theorem isOverdue_end_gt (now : Int) (t : Transaction) (due : Int)
    (hdue : t.dueDate = some due) (h : t.isOverdue now = true) :
    (match t.returnDate with
      | some rd => rd
      | none => now) > due := by
  rcases hr : t.returnDate with _ | rd <;>
    simp only [Transaction.isOverdue, hdue, hr] at h ⊢ <;>
    · split at h
      · exact absurd h (by simp)
      · split at h
        · simpa using h
        · exact absurd h (by simp)

/-- The number of days overdue of an overdue transaction is nonnegative. -/
theorem daysOverdue_nonneg (now : Int) (t : Transaction)
    (h : t.isOverdue now = true) : 0 ≤ t.daysOverdue now := by
  unfold Transaction.daysOverdue
  cases ht : t.dueDate with
  | none =>
    unfold Transaction.isOverdue at h
    rw [ht] at h
    simp at h
  | some due =>
    rw [if_neg (by simp [h, ht])]
    have key := isOverdue_end_gt now t due ht h
    rcases hr : t.returnDate with _ | rd <;>
      simp only [hr] at key <;>
      simp only [ht, hr, Option.getD_some, tdDays] <;>
      exact Int.fdiv_nonneg (by omega) (by norm_num)

/-! ### Claim theorems -/

/-- The fine schedule exactly as the specification words it:
`d*r` for `d ≤ 7`; `7r + (d-7)*1.5r` for `7 < d ≤ 30`;
`7r + 23*1.5r + (d-30)*2r` for `d > 30`; rounded to 2 decimal places. -/
def fineScheduleSpec (d : Int) (r : ℚ) : ℚ :=
  if d ≤ 7 then d * r
  else if d ≤ 30 then 7 * r + (d - 7) * (1.5 * r)
  else 7 * r + 23 * (1.5 * r) + (d - 30) * (2 * r)

/-- A completed borrow transaction due at time 0 and returned `d` days
later (claim C6's concrete examples). -/
def txOverdueBy (d : Int) : Transaction :=
  { id := "t1", memberId := "m1", transactionType := .borrow,
    bookId := some "b1", amount := 0, dueDate := some 0, notes := "",
    status := .completed, processedBy := some "system",
    processedAt := some 0, parentTransactionId := none, fineAmount := 0,
    returnDate := some (d * 86400), createdAt := 0, updatedAt := 0 }

/-- `calculate_fine` of an overdue transaction is the rounded progressive
schedule applied to its days overdue. -/
theorem calculateFine_eq_schedule (now : Int) (r : ℚ) (t : Transaction)
    (h : t.isOverdue now = true) :
    t.calculateFine now r = round2 (fineScheduleSpec (t.daysOverdue now) r) := by
  have hnn := daysOverdue_nonneg now t h
  unfold Transaction.calculateFine
  rw [if_neg (by simp [h])]
  by_cases h0 : t.daysOverdue now ≤ 0
  · rw [if_pos h0]
    have hz : t.daysOverdue now = 0 := le_antisymm h0 hnn
    simp [fineScheduleSpec, hz, round2]
  · rw [if_neg h0]
    unfold fineScheduleSpec
    split_ifs <;> ring

/-- C6: for every overdue transaction with `d` days overdue and daily rate
`r`, `calculate_fine(r)` equals the progressive schedule `d*r` (d ≤ 7) /
`7r + (d-7)*1.5r` (7 < d ≤ 30) / `7r + 23*1.5r + (d-30)*2r` (d > 30),
rounded to 2 decimal places; in particular at rate 1.0 an overdue of 5,
10 and 35 days gives 5.00, 11.50 and 51.50. -/
theorem C6_fine_schedule :
    (∀ (now : Int) (r : ℚ) (t : Transaction), t.isOverdue now = true →
      t.calculateFine now r = round2 (fineScheduleSpec (t.daysOverdue now) r)) ∧
    (txOverdueBy 5).calculateFine 500000 1.0 = 5 ∧
    (txOverdueBy 10).calculateFine 900000 1.0 = 11.5 ∧
    (txOverdueBy 35).calculateFine 3100000 1.0 = 51.5 := by
  refine ⟨calculateFine_eq_schedule, ?_, ?_, ?_⟩
  · rw [calculateFine_eq_schedule 500000 1.0 (txOverdueBy 5) (by decide),
      show (txOverdueBy 5).daysOverdue 500000 = 5 from by decide]
    norm_num [fineScheduleSpec, round2, round_eq]
  · rw [calculateFine_eq_schedule 900000 1.0 (txOverdueBy 10) (by decide),
      show (txOverdueBy 10).daysOverdue 900000 = 10 from by decide]
    norm_num [fineScheduleSpec, round2, round_eq]
  · rw [calculateFine_eq_schedule 3100000 1.0 (txOverdueBy 35) (by decide),
      show (txOverdueBy 35).daysOverdue 3100000 = 35 from by decide]
    norm_num [fineScheduleSpec, round2, round_eq]

/-- C6 witness: the schedule equation applied to the concrete five-day
overdue transaction. -/
theorem C6_fine_schedule_witness :
    (txOverdueBy 5).isOverdue 500000 = true ∧
    (txOverdueBy 5).calculateFine 500000 1.0 =
      round2 (fineScheduleSpec ((txOverdueBy 5).daysOverdue 500000) 1.0) :=
  ⟨by decide, C6_fine_schedule.1 500000 1.0 (txOverdueBy 5) (by decide)⟩

/-- C8: `can_borrow_books` holds exactly when the member is active, today
is not after the membership end date, the borrowed count is below the
maximum, and the fine balance is zero. -/
theorem C8_can_borrow (today : PyDate) (m : Member) :
    m.canBorrowBooks today = true ↔
      (m.status = MemberStatus.active ∧
       today.le m.membershipEndDate = true ∧
       m.borrowedBooksCount < m.maxBooksAllowed ∧
       m.fineAmount = 0) := by
  simp [Member.canBorrowBooks, Member.isActive, Member.isMembershipValid,
    Bool.and_eq_true, decide_eq_true_iff, beq_iff_eq, and_assoc]

/-- C7: the ISBN validator agrees with the specification's checksum rules
for ISBN-10 and ISBN-13 on every cleaned string, and accepts/rejects the
three examples as claimed. -/
theorem C7_isbn_validator :
    (∀ l : List Char, isbn10code l = isbn10spec l) ∧
    (∀ l : List Char, isbn13code l = isbn13spec l) ∧
    isbnOk "978-3-16-148410-0" = true ∧
    isbnOk "978-3-16-148410-1" = false ∧
    isbnOk "0-306-40615-2" = true :=
  ⟨isbn10_eq, isbn13_eq, by decide, by decide, by decide⟩

/-- A transaction already in the terminal `failed` status (C4's
counterexample state). -/
def txFailed : Transaction :=
  { id := "t1", memberId := "m1", transactionType := .borrow,
    bookId := some "b1", amount := 0, dueDate := some 1209600, notes := "",
    status := .failed, processedBy := none, processedAt := none,
    parentTransactionId := none, fineAmount := 0, returnDate := none,
    createdAt := 0, updatedAt := 0 }

/-- C4 counterexample: `cancel_transaction` on a FAILED (terminal)
transaction returns True and moves it to CANCELLED, so `failed` admits an
outgoing transition and the operation does modify a terminal transaction. -/
theorem C4_counterexample :
    txFailed.status = TransactionStatus.failed ∧
    (txFailed.cancelTransaction "" 5).1 = true ∧
    (txFailed.cancelTransaction "" 5).2.status =
      TransactionStatus.cancelled := by
  decide

/-- C4 (amended): `process_transaction` and `fail_transaction` move only
pending transactions (to completed resp. failed) and otherwise return
False leaving the transaction unchanged; `cancel_transaction` moves
pending AND failed transactions to cancelled and otherwise returns False
leaving the transaction unchanged; completed and cancelled are terminal. -/
theorem C4_transitions (t : Transaction) (pb reason : String) (now : Int) :
    ((t.processTransaction pb now).2.status =
      if t.status = .pending then .completed else t.status) ∧
    ((t.failTransaction reason now).2.status =
      if t.status = .pending then .failed else t.status) ∧
    ((t.cancelTransaction reason now).2.status =
      if t.status = .pending ∨ t.status = .failed then .cancelled
      else t.status) ∧
    (t.status ≠ .pending → t.processTransaction pb now = (false, t)) ∧
    (t.status ≠ .pending → t.failTransaction reason now = (false, t)) ∧
    (t.status ≠ .pending ∧ t.status ≠ .failed →
      t.cancelTransaction reason now = (false, t)) := by
  cases ht : t.status <;>
    simp [Transaction.processTransaction, Transaction.failTransaction,
      Transaction.cancelTransaction, ht] <;>
    (split <;> simp)

/-- A transaction in the terminal `completed` status. -/
def txDone : Transaction :=
  { txFailed with status := .completed }

/-- C4 witness: the amended theorem applied to a concrete completed
transaction. -/
theorem C4_transitions_witness :
    txDone.processTransaction "s" 5 = (false, txDone) ∧
    txDone.failTransaction "r" 5 = (false, txDone) ∧
    txDone.cancelTransaction "r" 5 = (false, txDone) :=
  ⟨(C4_transitions txDone "s" "r" 5).2.2.2.1 (by decide),
   (C4_transitions txDone "s" "r" 5).2.2.2.2.1 (by decide),
   (C4_transitions txDone "s" "r" 5).2.2.2.2.2 (by decide)⟩
/-- A freshly constructed book (for C3). -/
def freshBook : Book :=
  mkBook 0 "b1" "Dune" "Frank Herbert" "9783161484100" .fiction none "" 0 ""

/-- C3 counterexample: calling `set_status(BORROWED)` on a freshly
constructed (available) book succeeds and yields status `borrowed` with
all three borrower fields still null, violating the claimed equivalence;
so `set_status` does NOT preserve the invariant for every target status. -/
theorem C3_counterexample :
    (runBook freshBook [BookOp.setStatus .borrowed 1]).status =
      BookStatus.borrowed ∧
    (runBook freshBook [BookOp.setStatus .borrowed 1]).borrowedBy = none ∧
    (runBook freshBook [BookOp.setStatus .borrowed 1]).borrowedDate = none ∧
    (runBook freshBook [BookOp.setStatus .borrowed 1]).dueDate = none := by
  decide

/-- One public book operation other than `set_status(BORROWED)` preserves
the status/borrower-fields invariant. -/
theorem stepBook_inv (b : Book) (op : BookOp) (hb : bookInv b = true)
    (hop : op.setsStatusBorrowed = false) : bookInv (stepBook b op) = true := by
  cases op with
  | borrow memberId dueDate now =>
    simp only [stepBook, Book.borrow]
    split_ifs with h1
    all_goals try exact hb
    simp [bookInv]
  | returnBook now =>
    simp only [stepBook, Book.returnBook]
    split_ifs with h1
    all_goals try exact hb
    simp [bookInv]
  | setStatus s now =>
    have hs : s ≠ BookStatus.borrowed := by
      cases s <;> simp_all [BookOp.setsStatusBorrowed]
    simp only [stepBook, Book.setStatus]
    split_ifs with h1 h2
    · exact hb
    · subst h2
      simp [bookInv]
    · have hnb : b.status ≠ BookStatus.borrowed := fun hbb => h1 ⟨hbb, h2⟩
      simp only [bookInv] at hb ⊢
      rw [if_neg hnb] at hb
      simpa [hs] using hb
  | setTitle v now =>
    simp only [stepBook, Book.setTitle]
    split_ifs <;> simpa [bookInv] using hb
  | setAuthor v now =>
    simp only [stepBook, Book.setAuthor]
    split_ifs <;> simpa [bookInv] using hb
  | setIsbn v now =>
    simp only [stepBook, Book.setIsbn]
    split_ifs <;> simpa [bookInv] using hb
  | setCategory v now =>
    simp only [stepBook, Book.setCategory]
    simpa [bookInv] using hb
  | setPublicationYear v cy now =>
    cases v with
    | none =>
      simp only [stepBook, Book.setPublicationYear]
      simpa [bookInv] using hb
    | some y =>
      simp only [stepBook, Book.setPublicationYear]
      split_ifs <;> simpa [bookInv] using hb
  | setPublisher v now =>
    simp only [stepBook, Book.setPublisher]
    simpa [bookInv] using hb
  | setPages v now =>
    simp only [stepBook, Book.setPages]
    split_ifs <;> simpa [bookInv] using hb
  | setDescription v now =>
    simp only [stepBook, Book.setDescription]
    simpa [bookInv] using hb

/-- The invariant is preserved along any operation sequence avoiding
`set_status(BORROWED)`. -/
theorem runBook_inv (ops : List BookOp) (b : Book) (hb : bookInv b = true)
    (h : ∀ op ∈ ops, op.setsStatusBorrowed = false) :
    bookInv (runBook b ops) = true := by
  induction ops generalizing b with
  | nil => exact hb
  | cons op rest ih =>
    exact ih (stepBook b op) (stepBook_inv b op hb (h op (by simp)))
      fun o ho => h o (by simp [ho])

/-- C3 (amended): for every book reachable from a fresh construction by
public operations that never call `set_status` with target `borrowed`,
the status is `borrowed` iff borrower, borrowed date and due date are all
non-null, and all three are null for every other status.  (The claim as
stated fails: see the counterexample for `set_status(BORROWED)`.) -/
theorem C3_status_fields (now : Int) (id title author isbn : String)
    (category : BookCategory) (publicationYear : Option Int)
    (publisher : String) (pages : Int) (description : String)
    (ops : List BookOp)
    (h : ∀ op ∈ ops, op.setsStatusBorrowed = false) :
    bookInv (runBook
      (mkBook now id title author isbn category publicationYear publisher
        pages description) ops) = true :=
  runBook_inv ops _ rfl h

/-- C3 witness: a concrete borrow/return/maintenance history keeps the
invariant. -/
theorem C3_status_fields_witness :
    bookInv (runBook freshBook
      [BookOp.borrow "m1" 1209600 1, BookOp.returnBook 2,
       BookOp.setStatus .maintenance 3]) = true :=
  C3_status_fields 0 "b1" "Dune" "Frank Herbert" "9783161484100" .fiction
    none "" 0 "" _ (by decide)

/-- One public member operation preserves distinctness of the borrowed
list. -/
theorem stepMember_nodup (m : Member) (op : MemberOp)
    (h : m.borrowedBooks.Nodup) : (stepMember m op).borrowedBooks.Nodup := by
  cases op with
  | borrowBook bid today now =>
    simp only [stepMember, Member.borrowBook]
    split_ifs with h1 h2
    all_goals try simpa using h
    simp_all [List.nodup_append, List.disjoint_singleton]
  | returnBook bid now =>
    simp only [stepMember, Member.returnBook]
    split_ifs with h1
    all_goals try simpa using h
    simpa using h.erase bid
  | addFine amount now =>
    simp only [stepMember, Member.addFine]
    split_ifs <;> simpa using h
  | payFine amount now =>
    simp only [stepMember, Member.payFine]
    split_ifs <;> simpa using h
  | suspendMembership now =>
    simpa [stepMember, Member.suspendMembership] using h
  | reactivateMembership today now =>
    simp only [stepMember, Member.reactivateMembership]
    split_ifs <;> simpa using h
  | renewMembership years now =>
    simp only [stepMember, Member.renewMembership]
    split_ifs <;> simpa using h
  | setMembershipType v now =>
    simpa [stepMember, Member.setMembershipType] using h

/-- Distinctness of the borrowed list is preserved along any operation
sequence. -/
theorem runMember_nodup (ops : List MemberOp) (m : Member)
    (h : m.borrowedBooks.Nodup) : (runMember m ops).borrowedBooks.Nodup := by
  induction ops generalizing m with
  | nil => exact h
  | cons op rest ih => exact ih (stepMember m op) (stepMember_nodup m op h)

/-- C10: borrowing an already-borrowed book id returns False and leaves
the member unchanged, and after any operation sequence from construction
the borrowed list has no duplicate ids. -/
theorem C10_no_duplicates :
    (∀ (today : PyDate) (now : Int) (bookId : String) (m : Member),
      bookId ∈ m.borrowedBooks →
        m.borrowBook today now bookId = (false, m)) ∧
    (∀ (now : Int) (today : PyDate) (id firstName lastName : String)
        (membershipType : MembershipType) (dateOfBirth : Option PyDate)
        (studentId : String) (contactInfo : ContactInfo)
        (ops : List MemberOp),
      (runMember
        (mkMember now today id firstName lastName membershipType
          dateOfBirth studentId contactInfo) ops).borrowedBooks.Nodup) := by
  constructor
  · intro today now bookId m h
    simp [Member.borrowBook, h]
  · intro now today id firstName lastName membershipType dateOfBirth
      studentId contactInfo ops
    exact runMember_nodup ops _ (by simp [mkMember])

/-- A member currently holding book `b1` (for the C10 witness). -/
def memberHolding : Member :=
  { mkMember 0 ⟨2026, 1, 1⟩ "m1" "Ann" "Lee" .public none ""
      (mkContactInfo "" "" "") with
    borrowedBooks := ["b1"] }

/-- C10 witness: the theorem applied to a member already holding the book. -/
theorem C10_no_duplicates_witness :
    memberHolding.borrowBook ⟨2026, 1, 2⟩ 5 "b1" = (false, memberHolding) :=
  C10_no_duplicates.1 ⟨2026, 1, 2⟩ 5 "b1" memberHolding (by decide)
/-- Service configuration with the source defaults. -/
def cfgDefault : Config := ⟨14, 2, 1.0⟩

/-- An eligible public member who (inconsistently) already holds book id
`b1` in the borrowed list (constructible e.g. by loading such a record). -/
def memberDup : Member :=
  { mkMember 0 ⟨2026, 1, 1⟩ "m1" "Ann" "Lee" .public none ""
      (mkContactInfo "" "" "") with
    borrowedBooks := ["b1"] }

/-- An available copy of book `b1`. -/
def bookB1 : Book :=
  mkBook 0 "b1" "Dune" "Frank Herbert" "9783161484100" .fiction none "" 0 ""

/-- C2 counterexample: when the member-side update fails after the book was
marked borrowed, the compensation `book.return_book()` restores status and
borrower fields but APPENDS a spurious entry to the book's borrow history,
so the book is not exactly as before the call. -/
theorem C2_counterexample :
    (borrowBookSvc cfgDefault ⟨1000, ⟨2026, 6, 1⟩⟩ memberDup bookB1 []
      "t1" "system").result = BorrowRes.err .memberUpdateFailed ∧
    bookB1.borrowHistory = [] ∧
    (borrowBookSvc cfgDefault ⟨1000, ⟨2026, 6, 1⟩⟩ memberDup bookB1 []
      "t1" "system").book.borrowHistory =
      [{ memberId := some "m1", borrowedDate := some 1000,
         returnedDate := 1000, dueDate := some 1210600,
         wasOverdue := false }] := by
  decide

/-- C2 (amended): whenever `borrow_book` raises, the member, the
transaction store, and the book's status and borrower fields are exactly
as before the call; the borrow history is also unchanged, except on the
member-side-failure compensation path, where exactly one record is
appended to it.  (`hav`: a book whose status is available carries no
borrower fields, the Book invariant.) -/
theorem C2_borrow_rollback (cfg : Config) (clock : Clock) (m : Member)
    (b : Book) (txns : List Transaction) (txnId processedBy : String)
    (hav : b.isAvailable = true →
      b.borrowedBy = none ∧ b.borrowedDate = none ∧ b.dueDate = none)
    (e : BorrowErr)
    (he : (borrowBookSvc cfg clock m b txns txnId processedBy).result =
      BorrowRes.err e) :
    (borrowBookSvc cfg clock m b txns txnId processedBy).member = m ∧
    (borrowBookSvc cfg clock m b txns txnId processedBy).txns = txns ∧
    (borrowBookSvc cfg clock m b txns txnId processedBy).book.status =
      b.status ∧
    (borrowBookSvc cfg clock m b txns txnId processedBy).book.borrowedBy =
      b.borrowedBy ∧
    (borrowBookSvc cfg clock m b txns txnId processedBy).book.borrowedDate =
      b.borrowedDate ∧
    (borrowBookSvc cfg clock m b txns txnId processedBy).book.dueDate =
      b.dueDate ∧
    ((borrowBookSvc cfg clock m b txns txnId processedBy).book.borrowHistory
        = b.borrowHistory ∨
      ∃ rec,
        (borrowBookSvc cfg clock m b txns txnId processedBy).book.borrowHistory
          = b.borrowHistory ++ [rec]) := by
  by_cases h1 : m.canBorrowBooks clock.today
  · by_cases h2 : b.isAvailable
    · have hst : b.status = BookStatus.available := by
        simpa [Book.isAvailable, beq_iff_eq] using h2
      obtain ⟨hb1, hb2, hb3⟩ := hav h2
      by_cases h3 : b.id ∈ m.borrowedBooks
      · simp only [borrowBookSvc, mkTransaction,
          Transaction.processTransaction, Book.borrow, Member.borrowBook,
          Book.returnBook, h1, h2, h3] at he ⊢
        simp_all
      · simp only [borrowBookSvc, mkTransaction,
          Transaction.processTransaction, Book.borrow, Member.borrowBook,
          Book.returnBook, h1, h2, h3] at he ⊢
        simp_all
    · simp only [borrowBookSvc, h1, h2] at he ⊢
      simp_all
  · simp only [borrowBookSvc, h1] at he ⊢
    simp_all

/-- C2 witness: the amended theorem applied at the concrete rollback
scenario. -/
theorem C2_borrow_rollback_witness :
    (borrowBookSvc cfgDefault ⟨1000, ⟨2026, 6, 1⟩⟩ memberDup bookB1 []
      "t1" "system").member = memberDup ∧
    (borrowBookSvc cfgDefault ⟨1000, ⟨2026, 6, 1⟩⟩ memberDup bookB1 []
      "t1" "system").book.status = bookB1.status := by
  have h := C2_borrow_rollback cfgDefault ⟨1000, ⟨2026, 6, 1⟩⟩ memberDup
    bookB1 [] "t1" "system" (by decide) .memberUpdateFailed (by decide)
  exact ⟨h.1, h.2.2.1⟩
/-- The fine component of a return outcome. -/
def ReturnRes.fineOf : ReturnRes → Option ℚ
  | .ok _ fine => some fine
  | .err _ => none

/-- A transaction without a due date is never fined. -/
theorem calculateFine_of_no_due (now : Int) (rate : ℚ) (t : Transaction)
    (h : t.dueDate = none) : t.calculateFine now rate = 0 := by
  have hov : t.isOverdue now = false := by
    simp [Transaction.isOverdue, h]
  unfold Transaction.calculateFine
  rw [if_pos (by simp [hov])]

/-- `return_book` can never report a positive fine: the RETURN transaction
is created without a due date and `is_overdue` is restricted to BORROW
transactions, so `calculate_fine` on it always returns 0. -/
theorem returnBook_fine_always_zero (cfg : Config) (clock : Clock)
    (m : Member) (b : Book) (txns : List Transaction)
    (txnId processedBy : String) (t : Transaction) (f : ℚ)
    (he : (returnBookSvc cfg clock m b txns txnId processedBy).result =
      ReturnRes.ok t f) : f = 0 := by
  have hfine :
      (((mkTransaction clock.now txnId m.id .returnTx (some b.id) 0 none
          "").processTransaction processedBy clock.now).2).calculateFine
        clock.now cfg.dailyFineRate = 0 :=
    calculateFine_of_no_due clock.now cfg.dailyFineRate _ rfl
  by_cases h3 : b.id ∈ m.borrowedBooks
  · by_cases h4 : b.borrowedBy = some m.id
    · simp only [returnBookSvc, h3, h4, hfine] at he
      split_ifs at he <;> simp_all
    · simp only [returnBookSvc, h3, h4] at he
      simp_all
  · simp only [returnBookSvc, h3] at he
    simp_all

/-- The member who borrowed book `b1` (C1 failing input). -/
def memberM1 : Member :=
  { mkMember 0 ⟨2026, 1, 1⟩ "m1" "Ann" "Lee" .public none ""
      (mkContactInfo "" "" "") with
    borrowedBooks := ["b1"] }

/-- Book `b1`, borrowed by `m1` at time 0 and due at time 1209600
(14 days); the return happens at time 2852200, 19 days past due. -/
def bookLate : Book :=
  { mkBook 0 "b1" "Dune" "Frank Herbert" "9783161484100" .fiction none ""
      0 "" with
    status := .borrowed, borrowedBy := some "m1", borrowedDate := some 0,
    dueDate := some 1209600 }

/-- C1: evaluating `return_book` at a loan 19 days past due: the call
succeeds, but the returned fine is 0 and the member's balance stays 0 —
the progressive-schedule fine the claim (and the spec) require is never
assessed, because the RETURN transaction has no due date and
`is_overdue` only applies to BORROW transactions. -/
theorem C1_return_fine_bug :
    bookLate.dueDate = some 1209600 ∧
    (1209600 : Int) < 2852200 ∧
    (returnBookSvc cfgDefault ⟨2852200, ⟨2026, 6, 1⟩⟩ memberM1 bookLate []
      "t2" "system").result.fineOf = some 0 ∧
    (returnBookSvc cfgDefault ⟨2852200, ⟨2026, 6, 1⟩⟩ memberM1 bookLate []
      "t2" "system").member.fineAmount = 0 ∧
    memberM1.fineAmount = 0 ∧
    (returnBookSvc cfgDefault ⟨2852200, ⟨2026, 6, 1⟩⟩ memberM1 bookLate []
      "t2" "system").book.status = BookStatus.available ∧
    (returnBookSvc cfgDefault ⟨2852200, ⟨2026, 6, 1⟩⟩ memberM1 bookLate []
      "t2" "system").member.borrowedBooks = [] := by
  decide
/-- A valid member with empty contact info (C5's stored entity). -/
def memberOK : Member :=
  mkMember 0 ⟨2026, 1, 1⟩ "m1" "Ann" "Lee" .public none ""
    (mkContactInfo "" "" "")

/-- An update request carrying a `ContactInfo` built with an invalid phone
number — `ContactInfo.__init__` performs no validation, so the object is
constructible and the `contact_info` setter accepts it. -/
def badContactReq : MemberUpdate :=
  { contactInfo := some (mkContactInfo "" "123" "") }

/-- C5 counterexample: `update_member` applies the contact-info change to
the stored member, then re-validation fails and the error is reported —
but the stored member now carries the invalid phone; it is NOT left as it
was before the call. -/
theorem C5_counterexample :
    (updateMemberSvc ⟨2026, 6, 1⟩ 5 memberOK badContactReq).outcome =
      UpdateOutcome.validationFailed ["Invalid phone format"] ∧
    (updateMemberSvc ⟨2026, 6, 1⟩ 5 memberOK badContactReq).stored.contactInfo.phone = "123" ∧
    memberOK.contactInfo.phone = "" := by
  decide

/-- C5 (amended): when `update_member`/`update_book` reports validation
errors it does not persist (no save runs), but the stored entity RETAINS
the applied field changes — there is no rollback; persistence happens
exactly on the valid outcome. -/
theorem C5_update_no_rollback :
    (∀ (today : PyDate) (now : Int) (m : Member) (r : MemberUpdate),
      (updateMemberSvc today now m r).outcome.isValidationFailed = true →
        (updateMemberSvc today now m r).saved = false ∧
        (updateMemberSvc today now m r).stored =
          (applyMemberFields today now m r).1) ∧
    (∀ (today : PyDate) (now : Int) (m : Member) (r : MemberUpdate),
      (updateMemberSvc today now m r).outcome = UpdateOutcome.ok →
        (updateMemberSvc today now m r).saved = true) ∧
    (∀ (currentYear now : Int) (b : Book) (r : BookUpdate),
      (updateBookSvc currentYear now b r).outcome.isValidationFailed = true →
        (updateBookSvc currentYear now b r).saved = false ∧
        (updateBookSvc currentYear now b r).stored =
          (applyBookFields currentYear now b r).1) ∧
    (∀ (currentYear now : Int) (b : Book) (r : BookUpdate),
      (updateBookSvc currentYear now b r).outcome = UpdateOutcome.ok →
        (updateBookSvc currentYear now b r).saved = true) := by
  refine ⟨?_, ?_, ?_, ?_⟩
  · intro today now m r h
    simp only [updateMemberSvc] at h ⊢
    split_ifs at h ⊢ <;>
      simp_all [UpdateOutcome.isValidationFailed]
  · intro today now m r h
    simp only [updateMemberSvc] at h ⊢
    split_ifs at h ⊢ <;> simp_all
  · intro currentYear now b r h
    simp only [updateBookSvc] at h ⊢
    split_ifs at h ⊢ <;>
      simp_all [UpdateOutcome.isValidationFailed]
  · intro currentYear now b r h
    simp only [updateBookSvc] at h ⊢
    split_ifs at h ⊢ <;> simp_all

/-- A stored book whose title is empty (loadable state), so that any field
update fails re-validation. -/
def bookNoTitle : Book :=
  mkBook 0 "b9" "" "Frank Herbert" "9783161484100" .other none "" 0 ""

/-- A request changing only the page count. -/
def pagesReq : BookUpdate := { pages := some 5 }

/-- C5 witness: the amended theorem applied to the concrete failing member
and book updates. -/
theorem C5_update_no_rollback_witness :
    ((updateMemberSvc ⟨2026, 6, 1⟩ 5 memberOK badContactReq).saved = false ∧
      (updateMemberSvc ⟨2026, 6, 1⟩ 5 memberOK badContactReq).stored =
        (applyMemberFields ⟨2026, 6, 1⟩ 5 memberOK badContactReq).1) ∧
    ((updateBookSvc 2026 5 bookNoTitle pagesReq).saved = false ∧
      (updateBookSvc 2026 5 bookNoTitle pagesReq).stored =
        (applyBookFields 2026 5 bookNoTitle pagesReq).1) :=
  ⟨C5_update_no_rollback.1 ⟨2026, 6, 1⟩ 5 memberOK badContactReq (by decide),
   C5_update_no_rollback.2.2.1 2026 5 bookNoTitle pagesReq (by decide)⟩
/-- Parsing the serialized value of a category yields the category. -/
theorem bookCategory_ofValue_value (c : BookCategory) :
    BookCategory.ofValue c.value = some c := by cases c <;> rfl

/-- Parsing the serialized value of a book status yields the status. -/
theorem bookStatus_ofValue_value (s : BookStatus) :
    BookStatus.ofValue s.value = some s := by cases s <;> rfl

/-- Parsing the serialized value of a membership type yields the type. -/
theorem membershipType_ofValue_value (t : MembershipType) :
    MembershipType.ofValue t.value = some t := by cases t <;> rfl

/-- Parsing the serialized value of a member status yields the status. -/
theorem memberStatus_ofValue_value (s : MemberStatus) :
    MemberStatus.ofValue s.value = some s := by cases s <;> rfl

/-- Parsing the serialized value of a transaction type yields the type. -/
theorem transactionType_ofValue_value (t : TransactionType) :
    TransactionType.ofValue t.value = some t := by cases t <;> rfl

/-- Parsing the serialized value of a transaction status yields the
status. -/
theorem transactionStatus_ofValue_value (s : TransactionStatus) :
    TransactionStatus.ofValue s.value = some s := by cases s <;> rfl

/-- Book serialization round-trips (string fields are in stored, stripped
form, as the constructor and every setter guarantee). -/
theorem bookRoundtrip (now : Int) (b : Book)
    (ht : pstrip b.title = b.title) (ha : pstrip b.author = b.author)
    (hi : pstrip b.isbn = b.isbn) (hp : pstrip b.publisher = b.publisher)
    (hd : pstrip b.description = b.description) :
    Book.fromDict now b.toDict = some b := by
  simp only [Book.toDict, Book.fromDict, mkBook,
    bookCategory_ofValue_value, bookStatus_ofValue_value,
    ht, ha, hi, hp, hd]

/-- Member serialization round-trips. -/
theorem memberRoundtrip (now : Int) (today : PyDate) (m : Member)
    (hf : pstrip m.firstName = m.firstName)
    (hl : pstrip m.lastName = m.lastName)
    (hs : pstrip m.studentId = m.studentId)
    (he : pstrip m.contactInfo.email = m.contactInfo.email)
    (hp : pstrip m.contactInfo.phone = m.contactInfo.phone)
    (ha : pstrip m.contactInfo.address = m.contactInfo.address) :
    Member.fromDict now today m.toDict = some m := by
  simp only [Member.toDict, Member.fromDict, mkMember,
    ContactInfo.toDict, ContactInfo.fromDict, mkContactInfo,
    membershipType_ofValue_value, memberStatus_ofValue_value,
    hf, hl, hs, he, hp, ha]

/-- Transaction serialization round-trips, EXCEPT for a borrow transaction
without a due date (see the counterexample) and an empty-string book id. -/
theorem txnRoundtrip (nowSer nowDe : Int) (t : Transaction)
    (hm : pstrip t.memberId = t.memberId)
    (hn : pstrip t.notes = t.notes)
    (hb : t.bookId = none ∨
      ∃ s, t.bookId = some s ∧ s ≠ "" ∧ pstrip s = s)
    (hdue : ¬(t.transactionType = TransactionType.borrow ∧
      t.dueDate = none)) :
    Transaction.fromDict nowDe (t.toDict nowSer) = some t := by
  simp only [Transaction.toDict, Transaction.fromDict, mkTransaction,
    transactionType_ofValue_value, transactionStatus_ofValue_value,
    hm, hn]
  have hbid : (match t.bookId with
      | some s => if s = "" then none else some (pstrip s)
      | none => none) = t.bookId := by
    rcases hb with hb | ⟨s, hbs, hne, hstr⟩
    · rw [hb]
    · rw [hbs]
      simp [hne, hstr]
  have hdd : (match t.dueDate with
      | some d => some d
      | none =>
        if t.transactionType = TransactionType.borrow then
          some (nowDe + 14 * 86400)
        else none) = t.dueDate := by
    cases hdt : t.dueDate with
    | some d => rfl
    | none =>
      rw [if_neg fun hbt => hdue ⟨hbt, hdt⟩]
  rw [hbid, hdd]

/-- A completed borrow transaction whose due date was later cleared via
the `due_date` setter (which accepts `None`). -/
def txBor : Transaction :=
  mkTransaction 1000 "t1" "m1" .borrow (some "b1") 0 (some 5000) ""

/-- `Transaction.due_date` setter: rejects a non-null past date, accepts
`None`. -/
def Transaction.setDueDate (v : Option Int) (now : Int) (t : Transaction) :
    Option Transaction :=
  match v with
  | some d =>
    if d < now then none
    else some { t with dueDate := some d, updatedAt := now }
  | none => some { t with dueDate := none, updatedAt := now }

/-- The borrow transaction after clearing its due date. -/
def txNoDue : Transaction :=
  { txBor with dueDate := none, updatedAt := 2000 }

/-- C9 counterexample: a borrow transaction with a null due date (reachable
through the public `due_date` setter) does NOT round-trip: `from_dict`
re-installs the constructor's default due date `now + 14 days` instead of
null. -/
theorem C9_counterexample :
    Transaction.setDueDate none 2000 txBor = some txNoDue ∧
    txNoDue.dueDate = none ∧
    (Transaction.fromDict 9000 (txNoDue.toDict 9000)).map
      (fun t => t.dueDate) = some (some 1218600) := by
  refine ⟨rfl, rfl, ?_⟩
  decide

/-- C9 (amended): `from_dict (to_dict E)` reproduces every field of `E`
for every Book and every Member (whose string fields are in stored
stripped form), and for every Transaction except a borrow transaction
with a null due date or an empty-string book id. -/
theorem C9_roundtrip :
    (∀ (now : Int) (b : Book),
      pstrip b.title = b.title → pstrip b.author = b.author →
      pstrip b.isbn = b.isbn → pstrip b.publisher = b.publisher →
      pstrip b.description = b.description →
      Book.fromDict now b.toDict = some b) ∧
    (∀ (now : Int) (today : PyDate) (m : Member),
      pstrip m.firstName = m.firstName → pstrip m.lastName = m.lastName →
      pstrip m.studentId = m.studentId →
      pstrip m.contactInfo.email = m.contactInfo.email →
      pstrip m.contactInfo.phone = m.contactInfo.phone →
      pstrip m.contactInfo.address = m.contactInfo.address →
      Member.fromDict now today m.toDict = some m) ∧
    (∀ (nowSer nowDe : Int) (t : Transaction),
      pstrip t.memberId = t.memberId → pstrip t.notes = t.notes →
      (t.bookId = none ∨ ∃ s, t.bookId = some s ∧ s ≠ "" ∧ pstrip s = s) →
      ¬(t.transactionType = TransactionType.borrow ∧ t.dueDate = none) →
      Transaction.fromDict nowDe (t.toDict nowSer) = some t) :=
  ⟨bookRoundtrip, memberRoundtrip, txnRoundtrip⟩

/-- Concrete entities for the C9 witness. -/
def bookRT : Book :=
  mkBook 3 "b7" "Emma" "Jane Austen" "9780306406157" .fiction (some 1815)
    "Vintage" 200 "classic"

/-- Concrete member for the C9 witness. -/
def memberRT : Member :=
  mkMember 3 ⟨2026, 1, 1⟩ "m7" "Ann" "Lee" .student (some ⟨2000, 5, 4⟩)
    "s1" (mkContactInfo "ann@lee.example" "0123456789" "1 Main St")

/-- Concrete transaction for the C9 witness. -/
def txRT : Transaction :=
  mkTransaction 1000 "t7" "m7" .borrow (some "b7") 0 (some 5000) "note"

/-- C9 witness: the three round-trip statements applied to concrete
entities. -/
theorem C9_roundtrip_witness :
    Book.fromDict 9 bookRT.toDict = some bookRT ∧
    Member.fromDict 9 ⟨2027, 1, 1⟩ memberRT.toDict = some memberRT ∧
    Transaction.fromDict 9 (txRT.toDict 8) = some txRT :=
  ⟨C9_roundtrip.1 9 bookRT (by decide) (by decide) (by decide) (by decide)
      (by decide),
   C9_roundtrip.2.1 9 ⟨2027, 1, 1⟩ memberRT (by decide) (by decide)
      (by decide) (by decide) (by decide) (by decide),
   C9_roundtrip.2.2 8 9 txRT (by decide) (by decide)
      (Or.inr ⟨"b7", by decide, by decide, by decide⟩) (by decide)⟩

end LibMS
